import Mathlib

/-!
# ESP32 oscilloscope web client (`src/data/app.js`)

A shallow embedding of the browser client's scheduler and of its chart buffer
adapter.  Module-level variables of the script become fields of `State`; every
function of the script that touches them becomes a state transformer.  An
`async` function is split at its `await`: the part before the `await` and the
continuation that runs when the awaited promise settles.

Values coming from the device are JavaScript values (`JsVal`); values read from
the form with `parseInt` are integers or `NaN` (`JsNum`).

The text the script writes into page elements (`connectionStatus`,
`modeStatus`, the status line) and the console output are not part of the
state; of the signal status only the label `updateSignalStatus` derives is
modelled.  The chart library is an external collaborator: `chart.update`
redraws and returns.
-/

namespace Oscilloscope

/-! ## JavaScript values -/

/-- A JavaScript value as produced by `response.json()`, together with
`undefined`.  Numbers that are only carried around (ADC readings) are kept as
integers; nothing in the script computes with them. -/
inductive JsVal where
  | undefined : JsVal
  | null : JsVal
  | bool (b : Bool) : JsVal
  | num (n : Int) : JsVal
  | str (s : String) : JsVal
  | arr (items : List JsVal) : JsVal
  | obj (props : List (String × JsVal)) : JsVal

/-- The result of `parseInt` on a form field: an integer, or `NaN` when the
field holds no number. -/
inductive JsNum where
  | nan : JsNum
  | int (v : Int) : JsNum
  deriving DecidableEq

/-- The exceptions the modelled code can raise. -/
inductive JsError where
  | typeError : JsError
  | rangeError : JsError
  deriving DecidableEq

/-- JavaScript truthiness (`!v` is the negation of this). -/
def JsVal.truthy : JsVal → Bool
  | .undefined => false
  | .null => false
  | .bool b => b
  | .num n => n != 0
  | .str s => s != ""
  | .arr _ => true
  | .obj _ => true

/-- The function `Array.isArray`. -/
def JsVal.isArray : JsVal → Bool
  | .arr _ => true
  | _ => false

/-- Own-property lookup in a parsed object. -/
def lookupProp (key : String) : List (String × JsVal) → JsVal
  | [] => .undefined
  | (k, v) :: rest => if k = key then v else lookupProp key rest

/-- Property read `v.channels`: a `TypeError` on `null` and `undefined`, the
property of an object, and `undefined` on every other value (primitives and
arrays have no property of that name). -/
def JsVal.channels : JsVal → Except JsError JsVal
  | .undefined => .error .typeError
  | .null => .error .typeError
  | .obj props => .ok (lookupProp "channels" props)
  | _ => .ok .undefined

/-- The constructor call `Array(n)` on a number: the length must be an integer
in `0 .. 2^32 - 1`, anything else raises a `RangeError`. -/
def arrayLength (n : JsNum) : Except JsError Nat :=
  match n with
  | .nan => .error .rangeError
  | .int v => if 0 ≤ v ∧ v < 4294967296 then .ok v.toNat else .error .rangeError

/-- The length `Array.from` reads from `{ length: n }`: `NaN` and negative
numbers count as zero. -/
def toLength (n : JsNum) : Nat :=
  match n with
  | .nan => 0
  | .int v => v.toNat

/-- The call `Array.from({ length: n }, (_, i) => i)`: the indices below the
length, or a `RangeError` when the length exceeds the largest array length. -/
def arrayFrom (n : JsNum) : Except JsError (List Nat) :=
  if toLength n < 4294967296 then .ok (List.range (toLength n)) else .error .rangeError

/-! ## Data model -/

/-- Acquisition settings, the shape of `currentSettings`. -/
structure Settings where
  numSamples : JsNum
  sampleRate : JsNum
  channelDelay : JsNum
  captureInterval : JsNum
  webUpdate : JsNum
  deriving DecidableEq

/-- Signal generator settings, the shape of `currentSignalSettings`. -/
structure SignalSettings where
  waveformType : JsNum
  amplitude : JsNum
  frequency : JsNum
  dutyCycle : JsNum
  dcOffset : JsNum
  pulseWidthMs : JsNum
  deriving DecidableEq

/-- One entry of `chart.data.datasets`: its label and its sample buffer. -/
structure Dataset where
  label : String
  data : List JsVal

/-- The part of the chart object the script reads and writes. -/
structure Chart where
  labels : List Nat
  datasets : List Dataset

/-- The six channel colours; their number fixes the number of datasets. -/
def channelColors : List String :=
  ["#ff6384", "#36a2eb", "#ffce56", "#4bc0c0", "#9966ff", "#ff9f40"]

/-! ## The chart buffer adapter -/

/-- The callback of `chart.data.datasets.forEach` in `updateChart`, applied to
the dataset at index `i`. -/
def updateDataset (channels : List JsVal) (i : Nat) (dataset : Dataset) : Dataset :=
  if i < channels.length then
    match channels.getD i .undefined with
    | .arr samples => { dataset with data := samples }
    | _ => dataset
  else dataset

/-- The loop `datasets.forEach((dataset, i) => ...)` from index `i` on. -/
def forEachDataset (channels : List JsVal) : Nat → List Dataset → List Dataset
  | _, [] => []
  | i, dataset :: rest => updateDataset channels i dataset :: forEachDataset channels (i + 1) rest

/-- How a call ended: normally, or by raising an exception. -/
inductive Completion where
  | normal : Completion
  | throws (e : JsError) : Completion
  deriving DecidableEq

/-- The chart after a call of `updateChart`, and how the call ended. -/
structure UpdateResult where
  chart : Option Chart
  completion : Completion

/-- The function `updateChart(data)`.  The guard is evaluated left to right:
`!chart` first, then the property read `data.channels` (which raises on `null`
and `undefined`), then `Array.isArray`.  The external `chart.update` redraws
and is taken not to raise. -/
def updateChart (chart : Option Chart) (data : JsVal) : UpdateResult :=
  match chart with
  | none => { chart := none, completion := .normal }
  | some c =>
    match data.channels with
    | .error e => { chart := some c, completion := .throws e }
    | .ok channels =>
      if !channels.truthy then { chart := some c, completion := .normal }
      else
        match channels with
        | .arr items =>
          { chart := some { c with datasets := forEachDataset items 0 c.datasets },
            completion := .normal }
        | _ => { chart := some c, completion := .normal }

/-! ## Scheduler state -/

/-- An active periodic timer: the handle `setInterval` returned and the period
it was given. -/
structure Timer where
  handle : Nat
  period : JsNum
  deriving DecidableEq

/-- The module-level variables of the script, followed by the environment the
script acts on: the active periodic timers, the next timer handle of the
browser, the number of `/data` requests in flight and the number of `/data`
requests issued so far. -/
structure State where
  chart : Option Chart
  continuousMode : Bool
  isCapturing : Bool
  updateInterval : Option Nat
  currentSettings : Settings
  currentSignalSettings : SignalSettings
  timers : List Timer
  nextHandle : Nat
  outstanding : Nat
  fetchesStarted : Nat

/-- The initial value of `currentSettings`. -/
def defaultSettings : Settings :=
  { numSamples := .int 100, sampleRate := .int 100, channelDelay := .int 5,
    captureInterval := .int 50, webUpdate := .int 500 }

/-- The initial value of `currentSignalSettings`. -/
def defaultSignalSettings : SignalSettings :=
  { waveformType := .int 0, amplitude := .int 128, frequency := .int 1000,
    dutyCycle := .int 50, dcOffset := .int 128, pulseWidthMs := .int 100 }

/-- The state after the script has been loaded: no chart, continuous mode, no
capture in flight, no timer.  Timer handles are positive integers. -/
def init : State :=
  { chart := none, continuousMode := true, isCapturing := false, updateInterval := none,
    currentSettings := defaultSettings, currentSignalSettings := defaultSignalSettings,
    timers := [], nextHandle := 1, outstanding := 0, fetchesStarted := 0 }

/-- The browser call `clearInterval(h)`. -/
def clearInterval (s : State) (h : Nat) : State :=
  { s with timers := s.timers.filter fun t => t.handle != h }

/-- The function `startUpdates`: cancel the timer whose handle is stored in
`updateInterval` when that handle is truthy, then start a timer with period
`currentSettings.webUpdate` and store its handle. -/
def startUpdates (s : State) : State :=
  let s1 := match s.updateInterval with
    | some h => if h != 0 then clearInterval s h else s
    | none => s
  { s1 with
    timers := { handle := s1.nextHandle, period := s1.currentSettings.webUpdate } :: s1.timers,
    updateInterval := some s1.nextHandle,
    nextHandle := s1.nextHandle + 1 }

/-- The function `fetchData` up to its first `await`: return when a capture is
in flight, otherwise set the flag and issue the `/data` request. -/
def fetchData (s : State) : State :=
  if s.isCapturing then s
  else { s with isCapturing := true, outstanding := s.outstanding + 1,
                fetchesStarted := s.fetchesStarted + 1 }

/-- The ways a `/data` request can end. -/
inductive FetchOutcome where
  | networkFailure : FetchOutcome
  | httpError (status : Nat) : FetchOutcome
  | badJson : FetchOutcome
  | json (data : JsVal) : FetchOutcome

/-- The rest of `fetchData`, run when its request ends: the `try` body on a
parsed payload, the `catch` block on every failure (it only reports), also
when `updateChart` raises, and the `finally` block in every case.  Between the
response and the parsed body no variable of the script changes, so the two
awaits are one step.  Without a request in flight there is no continuation to
run. -/
def fetchDataSettle (s : State) (o : FetchOutcome) : State :=
  if s.outstanding = 0 then s
  else
    let s1 := match o with
      | .json data => { s with chart := (updateChart s.chart data).chart }
      | _ => s
    { s1 with isCapturing := false, outstanding := s1.outstanding - 1 }

/-- The callback `startUpdates` hands to `setInterval`. -/
def tickCallback (s : State) : State :=
  if s.continuousMode && !s.isCapturing then fetchData s else s

/-- The function `captureWaveform`. -/
def captureWaveform (s : State) : State := fetchData s

/-- The function `toggleMode`; the `/setMode` request it issues is not awaited. -/
def toggleMode (s : State) : State :=
  { s with continuousMode := !s.continuousMode }

/-- The ways a request that carries no payload back can end. -/
inductive ApplyOutcome where
  | networkFailure : ApplyOutcome
  | response (ok : Bool) : ApplyOutcome

/-- The `then` and `catch` callbacks of the `/setMode` request: both only log. -/
def setModeSettle (s : State) (_o : ApplyOutcome) : State := s

/-- The datasets `initChart` builds: one per channel colour, labelled
`CH1`, `CH2`, ..., each holding `n` zeros. -/
def initialDatasets (n : Nat) : List Dataset :=
  channelColors.enum.map fun p =>
    { label := "CH" ++ toString (p.1 + 1), data := List.replicate n (.num 0) }

/-- The function `initChart`.  `chartLoaded` says whether the chart library is
defined.  The labels are built first, then the datasets; `Array.from` and
`Array(numSamples)` raise for an invalid length, which leaves the function
before `chart` is assigned. -/
def initChart (s : State) (chartLoaded : Bool) : State :=
  if !chartLoaded then s
  else
    match arrayFrom s.currentSettings.numSamples with
    | .error _ => s
    | .ok labels =>
      match arrayLength s.currentSettings.numSamples with
      | .error _ => s
      | .ok n =>
        let c : Chart := { labels := labels, datasets := initialDatasets n }
        startUpdates { s with chart := some c }

/-- The loop of `applySettings` that gives every dataset `Array(n).fill(0)`;
the first iteration raises when `n` is not a valid array length. -/
def resetDatasets (n : JsNum) : List Dataset → Except JsError (List Dataset)
  | [] => .ok []
  | dataset :: rest =>
    match arrayLength n with
    | .error e => .error e
    | .ok k =>
      match resetDatasets n rest with
      | .error e => .error e
      | .ok rest1 => .ok ({ dataset with data := List.replicate k (.num 0) } :: rest1)

/-- The function `applySettings` from the response of `/setConfig` on; before
that it only reads the form into `settings`.  On an ok response the statements
of the branch run in order: the assignment to `currentSettings`, the new labels,
the new sample buffers, `startUpdates`.  An exception among them (no chart,
invalid array length) ends the branch in the `catch` block, which only logs. -/
def applySettings (s : State) (settings : Settings) (o : ApplyOutcome) : State :=
  match o with
  | .networkFailure => s
  | .response false => s
  | .response true =>
    let s1 := { s with currentSettings := settings }
    match s1.chart with
    | none => s1
    | some c =>
      match arrayFrom settings.numSamples with
      | .error _ => s1
      | .ok labels =>
        let c1 := { c with labels := labels }
        match resetDatasets settings.numSamples c1.datasets with
        | .error _ => { s1 with chart := some c1 }
        | .ok datasets => startUpdates { s1 with chart := some { c1 with datasets := datasets } }

/-- The function `applySignalSettings` from the response of `/setSignalConfig`
on. -/
def applySignalSettings (s : State) (settings : SignalSettings) (o : ApplyOutcome) : State :=
  match o with
  | .response true => { s with currentSignalSettings := settings }
  | _ => s

/-! ## Events -/

/-- What can happen to the page. -/
inductive Event where
  | tick : Event
  | capture : Event
  | toggle : Event
  | setModeSettled (o : ApplyOutcome) : Event
  | settle (o : FetchOutcome) : Event
  | initChart (chartLoaded : Bool) : Event
  | startUpdates : Event
  | applySettings (settings : Settings) (o : ApplyOutcome) : Event
  | applySignalSettings (settings : SignalSettings) (o : ApplyOutcome) : Event

/-- One step of the page. -/
def step (s : State) : Event → State
  | .tick => tickCallback s
  | .capture => captureWaveform s
  | .toggle => toggleMode s
  | .setModeSettled o => setModeSettle s o
  | .settle o => fetchDataSettle s o
  | .initChart loaded => initChart s loaded
  | .startUpdates => startUpdates s
  | .applySettings settings o => applySettings s settings o
  | .applySignalSettings settings o => applySignalSettings s settings o

/-- The state after a sequence of events. -/
def run (s : State) (events : List Event) : State := events.foldl step s

/-! ## Signal status label -/

/-- The device-reported status `updateSignalStatus` receives from
`/getSignalStatus`, for the statuses of the data model: the waveform type and
the amplitude are non-negative integers, the frequency and the duty cycle are
non-negative integers or missing (`undefined`, as in a status that reports
only what a DC signal needs).  The model of the label is exact for an
amplitude of at most 255 (the 8-bit range of the signal generator) and for a
frequency and a duty cycle below `2^53`, where a JavaScript number is the
integer it prints. -/
structure SignalStatus where
  enabled : Bool
  waveformType : Nat
  amplitude : Nat
  frequency : Option Nat
  dutyCycle : Option Nat

/-- The table `waveforms` of `updateSignalStatus`. -/
def waveforms : List String := ["DC", "Square", "Sine", "Triangle", "PWM"]

/-- A template-literal substitution of an integer below `2^53`, or of a missing
property, which prints as `undefined`. -/
def interpolate : Option Nat → String
  | none => "undefined"
  | some n => toString n

/-- The fraction `num / den` in hundredths, rounded to the nearest integer, to
the larger one on a tie. -/
def hundredths (num den : Nat) : Nat := (200 * num + den) / (2 * den)

/-- A number of hundredths written with two decimals. -/
def twoDecimals (n : Nat) : String :=
  toString (n / 100) ++ "." ++ toString (n % 100 / 10) ++ toString (n % 10)

/-- The method `toFixed(2)` on the non-negative fraction `num / den`: the
nearest multiple of one hundredth, the larger one on a tie, written with two
decimals. -/
def toFixed2 (num den : Nat) : String := twoDecimals (hundredths num den)

/-- The text `(status.amplitude * 3.3 / 255).toFixed(2)` for an amplitude of at
most 255, with `3.3` taken as the fraction `33 / 10`.  In hundredths the exact
value is `22 * amplitude / 17`, at least `1 / 34` away from every rounding
boundary, while the double-precision product and quotient of an amplitude in
that range are off by less than `10^-12`; so the digits are those of the exact
value.  Beyond that range the doubles can round the other way and the
definition is not meant to be used. -/
def voltage (amplitude : Nat) : String := toFixed2 (amplitude * 33) (10 * 255)

/-- The text `updateSignalStatus` writes to the `signalInfo` element for a
status it received. -/
def updateSignalStatus (status : SignalStatus) : String :=
  if status.enabled then
    if status.waveformType = 0 then
      "DC " ++ voltage status.amplitude ++ "V"
    else if status.waveformType = 4 then
      "PWM " ++ interpolate status.frequency ++ "Hz " ++ interpolate status.dutyCycle ++ "% ("
        ++ voltage status.amplitude ++ "V)"
    else
      waveforms.getD status.waveformType "undefined" ++ " " ++ interpolate status.frequency
        ++ "Hz (" ++ voltage status.amplitude ++ "V)"
  else "No Signal"

/-! ## Observations used in the statements -/

/-- The sample buffer of channel `i` of a chart, when the chart has one. -/
def Chart.channel (c : Chart) (i : Nat) : Option (List JsVal) :=
  (c.datasets[i]?).map Dataset.data

/-- The payload carries a `channels` field that is an array. -/
def HasChannelArray (data : JsVal) : Prop :=
  ∃ items, data.channels = .ok (.arr items)

/-- The timer handles that can still fire. -/
def activeHandles (s : State) : List Nat := s.timers.map Timer.handle

/-- The single-flight invariant: the number of `/data` requests in flight is
one when `isCapturing` is set and zero otherwise. -/
def SingleFlight (s : State) : Prop :=
  s.outstanding = if s.isCapturing then 1 else 0

instance (s : State) : Decidable (SingleFlight s) := by
  unfold SingleFlight
  infer_instance

/-- The event is the end of a `/data` request. -/
def Event.isSettle : Event → Bool
  | .settle _ => true
  | _ => false

/-- The timer invariant: handles are positive and below the next handle of the
browser, every active timer is the one `updateInterval` names, and there is at
most one. -/
def TimerInv (s : State) : Prop :=
  0 < s.nextHandle ∧
    (∀ t ∈ s.timers, s.updateInterval = some t.handle ∧ 0 < t.handle ∧ t.handle < s.nextHandle) ∧
    s.timers.length ≤ 1

instance (s : State) : Decidable (TimerInv s) := by
  unfold TimerInv
  infer_instance

/-! ## Concrete inputs -/

/-- The chart `initChart` builds from the default settings: six channels of one
hundred zeros. -/
def freshChart : Chart :=
  { labels := List.range 100, datasets := initialDatasets 100 }

/-- A well-formed channel of one hundred readings. -/
def fullChannel : JsVal := .arr (List.replicate 100 (.num 1))

/-- A payload whose channel 3 is a string and whose other five channels are
well-formed arrays of one hundred readings. -/
def malformedChannel3 : JsVal :=
  .obj [("channels",
    .arr [fullChannel, fullChannel, fullChannel, .str "bad", fullChannel, fullChannel])]

/-- A payload with a single channel of three readings. -/
def shortPayload : JsVal :=
  .obj [("channels", .arr [.arr [.num 1, .num 2, .num 3]])]

/-- A payload without a `channels` field. -/
def noChannels : JsVal := .obj [("samples", .arr [])]

/-- The page after `initChart` with the chart library loaded: the chart exists
and the timer of period 500 runs. -/
def running : State := run init [.initChart true]

/-- A settings record whose sample count is not a valid array length and whose
poll period differs from the default. -/
def negativeSamples : Settings :=
  { defaultSettings with numSamples := .int (-1), webUpdate := .int 200 }

/-- A settings record that changes the poll period from 500 to 200. -/
def fasterSettings : Settings := { defaultSettings with webUpdate := .int 200 }

/-- The status of the first example: PWM at 1000 Hz, 25 %, full amplitude. -/
def pwmStatus : SignalStatus :=
  { enabled := true, waveformType := 4, frequency := some 1000, dutyCycle := some 25,
    amplitude := 255 }

/-- The status of the second example: DC at amplitude 128, without a frequency
and a duty cycle. -/
def dcStatus : SignalStatus :=
  { enabled := true, waveformType := 0, frequency := none, dutyCycle := none,
    amplitude := 128 }

/-! ## The chart buffer adapter: lemmas -/

theorem length_forEachDataset (channels : List JsVal) (i : Nat) (ds : List Dataset) :
    (forEachDataset channels i ds).length = ds.length := by
  induction ds generalizing i with
  | nil => rfl
  | cons d rest ih => simp [forEachDataset, ih]

theorem getElem?_forEachDataset (channels : List JsVal) (i k : Nat) (ds : List Dataset) :
    (forEachDataset channels i ds)[k]? = (ds[k]?).map (updateDataset channels (i + k)) := by
  induction ds generalizing i k with
  | nil => simp [forEachDataset]
  | cons d rest ih =>
    cases k with
    | zero => simp [forEachDataset]
    | succ k =>
      have hk : i + 1 + k = i + (k + 1) := by omega
      simp only [forEachDataset, List.getElem?_cons_succ, ih, hk]

theorem updateChart_of_array (c : Chart) (data : JsVal) (items : List JsVal)
    (h : data.channels = .ok (.arr items)) :
    updateChart (some c) data =
      { chart := some { c with datasets := forEachDataset items 0 c.datasets },
        completion := .normal } := by
  simp [updateChart, h, JsVal.truthy]

theorem updateChart_of_not_array (c : Chart) (data : JsVal) (h : ¬ HasChannelArray data) :
    (updateChart (some c) data).chart = some c := by
  unfold updateChart
  cases hc : data.channels with
  | error e => rfl
  | ok channels =>
    cases channels with
    | arr items => exact absurd ⟨items, hc⟩ h
    | _ => simp

theorem channel_updateChart_of_array (c : Chart) (items : List JsVal) (i : Nat) :
    Chart.channel { c with datasets := forEachDataset items 0 c.datasets } i =
      (c.datasets[i]?).map fun d => (updateDataset items i d).data := by
  simp [Chart.channel, getElem?_forEachDataset, Option.map_map, Function.comp_def]

theorem updateDataset_data_of_arr (items : List JsVal) (i : Nat) (d : Dataset)
    (samples : List JsVal) (h : items[i]? = some (.arr samples)) :
    (updateDataset items i d).data = samples := by
  have hi : i < items.length := by
    rcases Nat.lt_or_ge i items.length with hlt | hge
    · exact hlt
    · simp [List.getElem?_eq_none hge] at h
  have hg : items.getD i .undefined = .arr samples := by
    simp [List.getD_eq_getElem?_getD, h]
  unfold updateDataset
  rw [if_pos hi, hg]

theorem updateDataset_data_of_not_arr (items : List JsVal) (i : Nat) (d : Dataset)
    (h : ∀ samples, items[i]? ≠ some (.arr samples)) :
    updateDataset items i d = d := by
  unfold updateDataset
  split
  · rename_i hi
    have hg : items.getD i .undefined = items[i] := by
      simp [List.getD_eq_getElem?_getD, List.getElem?_eq_getElem hi]
    rw [hg]
    split
    · rename_i samples heq
      exact absurd (by rw [List.getElem?_eq_getElem hi, heq]) (h samples)
    · rfl
  · rfl

theorem updateDataset_label (items : List JsVal) (i : Nat) (d : Dataset) :
    (updateDataset items i d).label = d.label := by
  unfold updateDataset
  split
  · split <;> rfl
  · rfl

theorem updateDataset_data_cases (items : List JsVal) (i : Nat) (d : Dataset) :
    (updateDataset items i d).data = d.data ∨
      items[i]? = some (.arr (updateDataset items i d).data) := by
  by_cases h : ∃ samples, items[i]? = some (.arr samples)
  · obtain ⟨samples, hs⟩ := h
    right
    rw [updateDataset_data_of_arr items i d samples hs]
    exact hs
  · left
    rw [updateDataset_data_of_not_arr items i d (fun samples hs => h ⟨samples, hs⟩)]

theorem arrayFrom_of_arrayLength (n : JsNum) (k : Nat) (h : arrayLength n = .ok k) :
    arrayFrom n = .ok (List.range k) ∧ toLength n = k := by
  cases n with
  | nan => simp [arrayLength] at h
  | int v =>
    unfold arrayLength at h
    dsimp only at h
    split at h
    · rename_i hv
      cases h
      have hlt : v.toNat < 4294967296 := by omega
      simp [arrayFrom, toLength, hlt]
    · cases h

theorem length_initialDatasets (n : Nat) : (initialDatasets n).length = 6 := by
  simp [initialDatasets, channelColors]

theorem data_of_mem_initialDatasets (n : Nat) (d : Dataset) (h : d ∈ initialDatasets n) :
    d.data = List.replicate n (.num 0) := by
  simp only [initialDatasets, List.mem_map] at h
  obtain ⟨p, _, rfl⟩ := h
  rfl

theorem startUpdates_chart (s : State) : (startUpdates s).chart = s.chart := by
  unfold startUpdates
  cases s.updateInterval with
  | none => rfl
  | some h =>
    by_cases h0 : (h != 0) = true
    · simp [h0, clearInterval]
    · simp [h0]

/-- On `null` with a chart in place the guard of `updateChart` raises a
`TypeError` before anything is written. -/
theorem updateChart_null_throws (c : Chart) :
    updateChart (some c) .null = { chart := some c, completion := .throws .typeError } := rfl

/-! ## The chart buffer adapter: results -/

/-- C4 (channel isolation).  For a chart of six channels and a payload whose
`channels` field is an array, `updateChart` leaves a chart of six channels in
which channel `i` is `payload.channels[i]` when that entry exists and is an
array, and is the prior channel `i` otherwise. -/
theorem updateChart_channel_isolation (c : Chart) (data : JsVal) (items : List JsVal)
    (h6 : c.datasets.length = 6) (hch : data.channels = .ok (.arr items)) :
    ∃ c1, (updateChart (some c) data).chart = some c1 ∧ c1.datasets.length = 6 ∧
      ∀ i, i < 6 →
        (∀ samples, items[i]? = some (.arr samples) → c1.channel i = some samples) ∧
        ((∀ samples, items[i]? ≠ some (.arr samples)) → c1.channel i = c.channel i) := by
  refine ⟨{ c with datasets := forEachDataset items 0 c.datasets }, ?_, ?_, ?_⟩
  · rw [updateChart_of_array c data items hch]
  · simpa [length_forEachDataset] using h6
  · intro i hi
    have hlt : i < c.datasets.length := by omega
    rw [channel_updateChart_of_array]
    constructor
    · intro samples hs
      simp [List.getElem?_eq_getElem hlt, updateDataset_data_of_arr items i _ samples hs]
    · intro hs
      simp [Chart.channel, List.getElem?_eq_getElem hlt,
        updateDataset_data_of_not_arr items i _ hs]

/-- C4 at the payload with channel 3 malformed: channels 0, 1, 2, 4 and 5 are
replaced by the hundred readings of the payload, channel 3 keeps its zeros. -/
theorem updateChart_channel_isolation_witness :
    ∃ c1, (updateChart (some freshChart) malformedChannel3).chart = some c1 ∧
      c1.channel 0 = some (List.replicate 100 (.num 1)) ∧
      c1.channel 1 = some (List.replicate 100 (.num 1)) ∧
      c1.channel 2 = some (List.replicate 100 (.num 1)) ∧
      c1.channel 3 = some (List.replicate 100 (.num 0)) ∧
      c1.channel 4 = some (List.replicate 100 (.num 1)) ∧
      c1.channel 5 = some (List.replicate 100 (.num 1)) := by
  obtain ⟨c1, h1, _, h3⟩ := updateChart_channel_isolation freshChart malformedChannel3
    [fullChannel, fullChannel, fullChannel, .str "bad", fullChannel, fullChannel] rfl rfl
  refine ⟨c1, h1, (h3 0 (by decide)).1 _ rfl, (h3 1 (by decide)).1 _ rfl,
    (h3 2 (by decide)).1 _ rfl, ?_, (h3 4 (by decide)).1 _ rfl, (h3 5 (by decide)).1 _ rfl⟩
  rw [(h3 3 (by decide)).2 (by intro samples hs; simp at hs)]
  rfl

/-- C9 (whole-payload rejection).  When the chart has not been created, or the
payload is `null` or `undefined`, or its `channels` property is missing or is
not an array, `updateChart` leaves the chart as it was, and so does the
continuation of `fetchData` that received the payload. -/
theorem updateChart_whole_payload_rejection (chart : Option Chart) (data : JsVal)
    (h : chart = none ∨ data = .null ∨ data = .undefined ∨
      ∃ v, data.channels = .ok v ∧ v.isArray = false) :
    (updateChart chart data).chart = chart ∧
      ∀ s : State, s.chart = chart → (fetchDataSettle s (.json data)).chart = chart := by
  have key : (updateChart chart data).chart = chart := by
    cases chart with
    | none => rfl
    | some c =>
      apply updateChart_of_not_array
      rintro ⟨items, hitems⟩
      rcases h with h | h | h | ⟨v, hv, hva⟩
      · cases h
      · subst h; simp [JsVal.channels] at hitems
      · subst h; simp [JsVal.channels] at hitems
      · rw [hv] at hitems
        cases hitems
        simp [JsVal.isArray] at hva
  refine ⟨key, ?_⟩
  intro s hs
  subst hs
  unfold fetchDataSettle
  split
  · rfl
  · exact key

/-- C9 at a payload without a `channels` field, on the chart of six channels of
zeros: the chart is unchanged. -/
theorem updateChart_whole_payload_rejection_witness :
    (updateChart (some freshChart) noChannels).chart = some freshChart :=
  (updateChart_whole_payload_rejection (some freshChart) noChannels
    (Or.inr (Or.inr (Or.inr ⟨.undefined, rfl, rfl⟩)))).1

/-- C8, as stated, fails: on the chart `initChart` builds from the default
settings (`numSamples` = 100) a payload with one channel of three readings
leaves channel 0 with three samples. -/
theorem updateChart_fixed_shape_counterexample :
    (initChart init true).currentSettings.numSamples = .int 100 ∧
      (initChart init true).chart = some freshChart ∧
      ∃ c1, (updateChart (initChart init true).chart shortPayload).chart = some c1 ∧
        c1.datasets.map (fun d => d.data.length) = [3, 100, 100, 100, 100, 100] := by
  refine ⟨rfl, rfl, _, rfl, ?_⟩
  rfl

/-- C8 (buffer shape, amended).  `updateChart` keeps the labels and the number
of channel buffers, and every channel buffer afterwards is either its prior
contents or the array `payload.channels[i]` itself, of whatever length; the
chart `initChart` builds has six buffers of `numSamples` zeros. -/
theorem updateChart_buffer_shape :
    (∀ (c : Chart) (data : JsVal),
      ∃ c1, (updateChart (some c) data).chart = some c1 ∧ c1.labels = c.labels ∧
        c1.datasets.length = c.datasets.length ∧
        ∀ (i : Nat) (d : Dataset), c.datasets[i]? = some d →
          ∃ d1 : Dataset, c1.datasets[i]? = some d1 ∧ d1.label = d.label ∧
            (d1.data = d.data ∨
              ∃ items : List JsVal,
                data.channels = .ok (.arr items) ∧ items[i]? = some (.arr d1.data))) ∧
    (∀ (s : State) (n : Nat), arrayLength s.currentSettings.numSamples = .ok n →
      ∃ c0, (initChart s true).chart = some c0 ∧ c0.datasets.length = 6 ∧
        ∀ d ∈ c0.datasets, d.data = List.replicate n (.num 0)) := by
  constructor
  · intro c data
    by_cases h : HasChannelArray data
    · obtain ⟨items, hitems⟩ := h
      refine ⟨{ c with datasets := forEachDataset items 0 c.datasets }, ?_, rfl, ?_, ?_⟩
      · rw [updateChart_of_array c data items hitems]
      · simp [length_forEachDataset]
      · intro i d hd
        refine ⟨updateDataset items i d, ?_, updateDataset_label items i d, ?_⟩
        · simp [getElem?_forEachDataset, hd]
        · rcases updateDataset_data_cases items i d with h1 | h1
          · exact Or.inl h1
          · exact Or.inr ⟨items, hitems, h1⟩
    · exact ⟨c, updateChart_of_not_array c data h, rfl, rfl,
        fun i d hd => ⟨d, hd, rfl, Or.inl rfl⟩⟩
  · intro s n hn
    refine ⟨{ labels := List.range n, datasets := initialDatasets n }, ?_,
            length_initialDatasets n, data_of_mem_initialDatasets n⟩
    simp [initChart, hn, (arrayFrom_of_arrayLength _ n hn).1, startUpdates_chart]

/-- C8 (amended) at the short payload and at the initial state. -/
theorem updateChart_buffer_shape_witness :
    (∃ c1, (updateChart (some freshChart) shortPayload).chart = some c1 ∧
      c1.datasets.length = freshChart.datasets.length) ∧
    (∃ c0, (initChart init true).chart = some c0 ∧ c0.datasets.length = 6) := by
  constructor
  · obtain ⟨c1, h1, _, h3, _⟩ := updateChart_buffer_shape.1 freshChart shortPayload
    exact ⟨c1, h1, h3⟩
  · obtain ⟨c0, h1, h2, _⟩ := updateChart_buffer_shape.2 init 100 rfl
    exact ⟨c0, h1, h2⟩

/-! ## The scheduler: lemmas -/

theorem run_nil (s : State) : run s [] = s := rfl

theorem run_cons (s : State) (e : Event) (events : List Event) :
    run s (e :: events) = run (step s e) events := rfl

theorem run_append (s : State) (xs ys : List Event) :
    run s (xs ++ ys) = run (run s xs) ys := by
  simp [run, List.foldl_append]

theorem startUpdates_frame (s : State) :
    (startUpdates s).isCapturing = s.isCapturing ∧
      (startUpdates s).outstanding = s.outstanding ∧
      (startUpdates s).fetchesStarted = s.fetchesStarted ∧
      (startUpdates s).continuousMode = s.continuousMode ∧
      (startUpdates s).currentSettings = s.currentSettings ∧
      (startUpdates s).currentSignalSettings = s.currentSignalSettings := by
  unfold startUpdates
  cases s.updateInterval with
  | none => simp
  | some h =>
    by_cases h0 : (h != 0) = true
    · simp [h0, clearInterval]
    · simp [h0]

theorem initChart_frame (s : State) (loaded : Bool) :
    (initChart s loaded).isCapturing = s.isCapturing ∧
      (initChart s loaded).outstanding = s.outstanding := by
  unfold initChart
  split
  · exact ⟨rfl, rfl⟩
  · split
    · exact ⟨rfl, rfl⟩
    · split
      · exact ⟨rfl, rfl⟩
      · exact ⟨(startUpdates_frame _).1, (startUpdates_frame _).2.1⟩

theorem applySettings_frame (s : State) (settings : Settings) (o : ApplyOutcome) :
    (applySettings s settings o).isCapturing = s.isCapturing ∧
      (applySettings s settings o).outstanding = s.outstanding := by
  unfold applySettings
  split
  · exact ⟨rfl, rfl⟩
  · exact ⟨rfl, rfl⟩
  · dsimp only
    split
    · exact ⟨rfl, rfl⟩
    · split
      · exact ⟨rfl, rfl⟩
      · split
        · exact ⟨rfl, rfl⟩
        · exact ⟨(startUpdates_frame _).1, (startUpdates_frame _).2.1⟩

theorem applySignalSettings_frame (s : State) (settings : SignalSettings) (o : ApplyOutcome) :
    (applySignalSettings s settings o).isCapturing = s.isCapturing ∧
      (applySignalSettings s settings o).outstanding = s.outstanding := by
  unfold applySignalSettings
  split <;> exact ⟨rfl, rfl⟩

theorem fetchData_of_capturing (s : State) (h : s.isCapturing = true) : fetchData s = s := by
  simp [fetchData, h]

theorem fetchData_of_idle (s : State) (h : s.isCapturing = false) :
    fetchData s = { s with isCapturing := true, outstanding := s.outstanding + 1,
                           fetchesStarted := s.fetchesStarted + 1 } := by
  simp [fetchData, h]

theorem singleFlight_fetchData (s : State) (h : SingleFlight s) : SingleFlight (fetchData s) := by
  cases hc : s.isCapturing with
  | true => rw [fetchData_of_capturing s hc]; exact h
  | false =>
    rw [fetchData_of_idle s hc]
    simp [SingleFlight, hc] at h ⊢
    exact h

theorem fetchDataSettle_isCapturing (s : State) (o : FetchOutcome) (h : 0 < s.outstanding) :
    (fetchDataSettle s o).isCapturing = false := by
  unfold fetchDataSettle
  rw [if_neg (by omega)]

theorem fetchDataSettle_outstanding (s : State) (o : FetchOutcome) :
    (fetchDataSettle s o).outstanding = s.outstanding - 1 := by
  unfold fetchDataSettle
  split
  · omega
  · cases o <;> rfl

theorem fetchDataSettle_frame (s : State) (o : FetchOutcome) :
    (fetchDataSettle s o).continuousMode = s.continuousMode ∧
      (fetchDataSettle s o).fetchesStarted = s.fetchesStarted := by
  unfold fetchDataSettle
  split
  · exact ⟨rfl, rfl⟩
  · cases o <;> exact ⟨rfl, rfl⟩

theorem singleFlight_fetchDataSettle (s : State) (o : FetchOutcome) (h : SingleFlight s) :
    SingleFlight (fetchDataSettle s o) := by
  by_cases h0 : s.outstanding = 0
  · simpa [fetchDataSettle, h0] using h
  · have hpos : 0 < s.outstanding := by omega
    have hone : s.outstanding = 1 := by
      unfold SingleFlight at h
      cases hc : s.isCapturing <;> simp [hc] at h <;> omega
    unfold SingleFlight
    rw [fetchDataSettle_isCapturing s o hpos, fetchDataSettle_outstanding, hone]
    rfl

theorem singleFlight_of_frame (s t : State) (h : SingleFlight s)
    (hf : t.isCapturing = s.isCapturing ∧ t.outstanding = s.outstanding) : SingleFlight t := by
  unfold SingleFlight at h ⊢
  rw [hf.1, hf.2]
  exact h

theorem singleFlight_step (s : State) (e : Event) (h : SingleFlight s) :
    SingleFlight (step s e) := by
  cases e with
  | tick =>
    show SingleFlight (tickCallback s)
    unfold tickCallback
    split
    · exact singleFlight_fetchData s h
    · exact h
  | capture => exact singleFlight_fetchData s h
  | toggle => exact h
  | setModeSettled o => exact h
  | settle o => exact singleFlight_fetchDataSettle s o h
  | initChart loaded => exact singleFlight_of_frame s _ h (initChart_frame s loaded)
  | startUpdates =>
    exact singleFlight_of_frame s _ h ⟨(startUpdates_frame s).1, (startUpdates_frame s).2.1⟩
  | applySettings settings o => exact singleFlight_of_frame s _ h (applySettings_frame s settings o)
  | applySignalSettings settings o =>
    exact singleFlight_of_frame s _ h (applySignalSettings_frame s settings o)

theorem singleFlight_run (s : State) (events : List Event) (h : SingleFlight s) :
    SingleFlight (run s events) := by
  induction events generalizing s with
  | nil => exact h
  | cons e rest ih => exact ih (step s e) (singleFlight_step s e h)

theorem singleFlight_init : SingleFlight init := rfl

theorem outstanding_le_fetchData (s : State) : s.outstanding ≤ (fetchData s).outstanding := by
  unfold fetchData
  split
  · exact Nat.le_refl _
  · exact Nat.le_succ _

theorem outstanding_le_step (s : State) (e : Event) (he : e.isSettle = false) :
    s.outstanding ≤ (step s e).outstanding := by
  cases e with
  | tick =>
    show s.outstanding ≤ (tickCallback s).outstanding
    unfold tickCallback
    split
    · exact outstanding_le_fetchData s
    · exact Nat.le_refl _
  | capture => exact outstanding_le_fetchData s
  | toggle => exact Nat.le_refl _
  | setModeSettled o => exact Nat.le_refl _
  | settle o => simp [Event.isSettle] at he
  | initChart loaded => exact Nat.le_of_eq (initChart_frame s loaded).2.symm
  | startUpdates => exact Nat.le_of_eq (startUpdates_frame s).2.1.symm
  | applySettings settings o => exact Nat.le_of_eq (applySettings_frame s settings o).2.symm
  | applySignalSettings settings o =>
    exact Nat.le_of_eq (applySignalSettings_frame s settings o).2.symm

theorem outstanding_le_run (s : State) (events : List Event)
    (h : ∀ e ∈ events, e.isSettle = false) : s.outstanding ≤ (run s events).outstanding := by
  induction events generalizing s with
  | nil => exact Nat.le_refl _
  | cons e rest ih =>
    have h1 := outstanding_le_step s e (h e (List.mem_cons_self e rest))
    have h2 := ih (step s e) (fun x hx => h x (List.mem_cons_of_mem e hx))
    rw [run_cons]
    omega

theorem tickCallback_of_snapshot (s : State) (h : s.continuousMode = false) :
    tickCallback s = s := by
  simp [tickCallback, h]

theorem run_ticks_of_snapshot (s : State) (n : Nat) (h : s.continuousMode = false) :
    run s (List.replicate n .tick) = s := by
  induction n with
  | zero => rfl
  | succ n ih =>
    rw [List.replicate_succ, run_cons]
    show run (tickCallback s) _ = s
    rw [tickCallback_of_snapshot s h]
    exact ih

/-! ## The scheduler: results -/

/-- C1 (single-flight).  In every state reached from the initial state by any
sequence of events, at most one `/data` request is in flight, one is in flight
exactly when `isCapturing` is set, and while it is set a capture request and a
timer tick leave the whole state, the flag included, as it is. -/
theorem single_flight (events : List Event) :
    (run init events).outstanding ≤ 1 ∧
      ((run init events).outstanding = 1 ↔ (run init events).isCapturing = true) ∧
      ((run init events).isCapturing = true →
        captureWaveform (run init events) = run init events ∧
          tickCallback (run init events) = run init events) := by
  have h := singleFlight_run init events singleFlight_init
  unfold SingleFlight at h
  refine ⟨?_, ?_, ?_⟩
  · rw [h]; split <;> decide
  · rw [h]; cases (run init events).isCapturing <;> simp
  · intro hc
    refine ⟨fetchData_of_capturing _ hc, ?_⟩
    simp [tickCallback, hc]

/-- C1 after a capture request: the flag is set, and a second capture request
and a tick are dropped. -/
theorem single_flight_witness :
    (run init [.capture]).isCapturing = true ∧
      captureWaveform (run init [.capture]) = run init [.capture] ∧
      tickCallback (run init [.capture]) = run init [.capture] :=
  ⟨rfl, (single_flight [.capture]).2.2 rfl⟩

/-- C2 (guard release).  A `fetchData` entered with `isCapturing` false sets the
flag and puts a request in flight; whatever happens before that request ends,
and however it ends, `isCapturing` is false afterwards, and a timer tick in
continuous mode then issues a new request. -/
theorem guard_release (s : State) (between : List Event) (o : FetchOutcome)
    (h : s.isCapturing = false) (hb : ∀ e ∈ between, e.isSettle = false) :
    (fetchData s).isCapturing = true ∧
      (fetchDataSettle (run (fetchData s) between) o).isCapturing = false ∧
      ((fetchDataSettle (run (fetchData s) between) o).continuousMode = true →
        (tickCallback (fetchDataSettle (run (fetchData s) between) o)).isCapturing = true ∧
        (tickCallback (fetchDataSettle (run (fetchData s) between) o)).fetchesStarted =
          (fetchDataSettle (run (fetchData s) between) o).fetchesStarted + 1) := by
  have hstart : 0 < (fetchData s).outstanding := by
    rw [fetchData_of_idle s h]
    exact Nat.succ_pos _
  have hpos : 0 < (run (fetchData s) between).outstanding :=
    Nat.lt_of_lt_of_le hstart (outstanding_le_run _ between hb)
  have hrel := fetchDataSettle_isCapturing (run (fetchData s) between) o hpos
  refine ⟨by rw [fetchData_of_idle s h], hrel, ?_⟩
  intro hmode
  unfold tickCallback
  rw [hmode, hrel]
  simp [fetchData_of_idle _ hrel]

/-- C2 at the initial state, with a mode toggle and a tick while the request is
in flight and the request ending in an HTTP error. -/
theorem guard_release_witness :
    (fetchDataSettle (run (fetchData init) [.toggle, .tick]) (.httpError 500)).isCapturing
      = false :=
  (guard_release init [.toggle, .tick] (.httpError 500) rfl (by decide)).2.1

/-- C3 (mode gating).  In snapshot mode any number of consecutive timer ticks
leaves the state as it is, so no request is issued, whatever `isCapturing` is;
`captureWaveform` issues exactly one request when `isCapturing` is false,
whatever the mode, and none when it is true. -/
theorem mode_gating :
    (∀ (s : State) (n : Nat), s.continuousMode = false →
      run s (List.replicate n .tick) = s ∧
        (run s (List.replicate n .tick)).fetchesStarted = s.fetchesStarted) ∧
    (∀ s : State, s.isCapturing = false →
      (captureWaveform s).fetchesStarted = s.fetchesStarted + 1 ∧
        (captureWaveform s).outstanding = s.outstanding + 1) ∧
    (∀ s : State, s.isCapturing = true →
      (captureWaveform s).fetchesStarted = s.fetchesStarted ∧
        (captureWaveform s).outstanding = s.outstanding) := by
  refine ⟨?_, ?_, ?_⟩
  · intro s n h
    rw [run_ticks_of_snapshot s n h]
    exact ⟨rfl, rfl⟩
  · intro s h
    show (fetchData s).fetchesStarted = _ ∧ (fetchData s).outstanding = _
    rw [fetchData_of_idle s h]
    exact ⟨rfl, rfl⟩
  · intro s h
    show (fetchData s).fetchesStarted = _ ∧ (fetchData s).outstanding = _
    rw [fetchData_of_capturing s h]
    exact ⟨rfl, rfl⟩

/-- C3 in snapshot mode: seven ticks issue no request, a capture request issues
one, a second one while the first is in flight issues none. -/
theorem mode_gating_witness :
    (run (toggleMode init) (List.replicate 7 .tick)).fetchesStarted = 0 ∧
      (captureWaveform (toggleMode init)).fetchesStarted = 1 ∧
      (captureWaveform (captureWaveform (toggleMode init))).fetchesStarted = 1 :=
  ⟨(mode_gating.1 (toggleMode init) 7 rfl).2, (mode_gating.2.1 (toggleMode init) rfl).1,
    (mode_gating.2.2 (captureWaveform (toggleMode init)) rfl).1⟩

/-- C10 (mode toggle).  In every state `toggleMode` negates `continuousMode` and
changes nothing else, whether the `/setMode` request then succeeds or fails;
two toggles in a row give back the state they started from. -/
theorem toggleMode_frame (s : State) (o : ApplyOutcome) :
    (setModeSettle (toggleMode s) o).continuousMode = (!s.continuousMode) ∧
      (setModeSettle (toggleMode s) o).isCapturing = s.isCapturing ∧
      (setModeSettle (toggleMode s) o).currentSettings = s.currentSettings ∧
      (setModeSettle (toggleMode s) o).currentSignalSettings = s.currentSignalSettings ∧
      (setModeSettle (toggleMode s) o).timers = s.timers ∧
      (setModeSettle (toggleMode s) o).updateInterval = s.updateInterval ∧
      (setModeSettle (toggleMode s) o).chart = s.chart ∧
      (setModeSettle (toggleMode s) o).outstanding = s.outstanding ∧
      (setModeSettle (toggleMode s) o).fetchesStarted = s.fetchesStarted ∧
      (setModeSettle (toggleMode s) o).nextHandle = s.nextHandle ∧
      toggleMode (toggleMode s) = s ∧
      setModeSettle (toggleMode (setModeSettle (toggleMode s) o)) o = s := by
  have h2 : toggleMode (toggleMode s) = s := by
    simp [toggleMode]
  exact ⟨rfl, rfl, rfl, rfl, rfl, rfl, rfl, rfl, rfl, rfl, h2, h2⟩

/-- C5 (config atomicity).  When `/setConfig` is answered with a non-ok status
or the request fails, `applySettings` leaves the whole state as it was: the
settings, the signal settings, the timers and the stored handle; the same for
`applySignalSettings` and `/setSignalConfig`. -/
theorem apply_rejected_atomic (s : State) (settings : Settings) (signal : SignalSettings)
    (o : ApplyOutcome) (h : o = .networkFailure ∨ o = .response false) :
    applySettings s settings o = s ∧ applySignalSettings s signal o = s ∧
      (applySettings s settings o).currentSettings = s.currentSettings ∧
      (applySettings s settings o).currentSignalSettings = s.currentSignalSettings ∧
      (applySettings s settings o).timers = s.timers ∧
      (applySettings s settings o).updateInterval = s.updateInterval ∧
      (applySignalSettings s signal o).currentSignalSettings = s.currentSignalSettings := by
  rcases h with h | h <;> subst h <;> exact ⟨rfl, rfl, rfl, rfl, rfl, rfl, rfl⟩

/-- C5 on the running page: a rejected change of `webUpdate` to 200 leaves the
default settings and the timer of period 500. -/
theorem apply_rejected_atomic_witness :
    (applySettings (initChart init true) { defaultSettings with webUpdate := .int 200 }
        (.response false)).currentSettings = defaultSettings ∧
      (applySettings (initChart init true) { defaultSettings with webUpdate := .int 200 }
        (.response false)).timers = [{ handle := 1, period := .int 500 }] := by
  have h := apply_rejected_atomic (initChart init true)
    { defaultSettings with webUpdate := .int 200 } defaultSignalSettings (.response false)
    (Or.inr rfl)
  exact ⟨h.2.2.1.trans rfl, h.2.2.2.2.1.trans rfl⟩

/-! ## Timers: lemmas -/

theorem timerInv_congr (s t : State) (h : TimerInv s) (h1 : t.timers = s.timers)
    (h2 : t.updateInterval = s.updateInterval) (h3 : t.nextHandle = s.nextHandle) :
    TimerInv t := by
  unfold TimerInv at h ⊢
  rw [h1, h2, h3]
  exact h

theorem startUpdates_timers (s : State) (h : TimerInv s) :
    (startUpdates s).timers =
        [{ handle := s.nextHandle, period := s.currentSettings.webUpdate }] ∧
      (startUpdates s).updateInterval = some s.nextHandle ∧
      (startUpdates s).nextHandle = s.nextHandle + 1 := by
  obtain ⟨_, hall, _⟩ := h
  unfold startUpdates
  cases hu : s.updateInterval with
  | none =>
    have hnil : s.timers = [] := by
      apply List.eq_nil_iff_forall_not_mem.mpr
      intro t ht
      have := (hall t ht).1
      rw [hu] at this
      cases this
    simp [hnil]
  | some k =>
    by_cases h0 : (k != 0) = true
    · have hnil : s.timers.filter (fun t => t.handle != k) = [] := by
        apply List.filter_eq_nil_iff.mpr
        intro t ht
        have := (hall t ht).1
        rw [hu] at this
        cases this
        simp
      simp [h0, clearInterval, hnil]
    · have hk : k = 0 := by simpa using h0
      have hnil : s.timers = [] := by
        apply List.eq_nil_iff_forall_not_mem.mpr
        intro t ht
        have h1 := (hall t ht).1
        have h2 := (hall t ht).2.1
        rw [hu] at h1
        cases h1
        omega
      simp [h0, hnil]

theorem timerInv_startUpdates (s : State) (h : TimerInv s) : TimerInv (startUpdates s) := by
  obtain ⟨ht, hu, hn⟩ := startUpdates_timers s h
  have hpos := h.1
  unfold TimerInv
  rw [ht, hu, hn]
  refine ⟨Nat.succ_pos _, ?_, by simp⟩
  intro t hmem
  simp only [List.mem_singleton] at hmem
  subst hmem
  exact ⟨rfl, hpos, Nat.lt_succ_self _⟩

theorem fetchData_timers (s : State) :
    (fetchData s).timers = s.timers ∧ (fetchData s).updateInterval = s.updateInterval ∧
      (fetchData s).nextHandle = s.nextHandle := by
  unfold fetchData
  split <;> exact ⟨rfl, rfl, rfl⟩

theorem tickCallback_timers (s : State) :
    (tickCallback s).timers = s.timers ∧ (tickCallback s).updateInterval = s.updateInterval ∧
      (tickCallback s).nextHandle = s.nextHandle := by
  unfold tickCallback
  split
  · exact fetchData_timers s
  · exact ⟨rfl, rfl, rfl⟩

theorem fetchDataSettle_timers (s : State) (o : FetchOutcome) :
    (fetchDataSettle s o).timers = s.timers ∧
      (fetchDataSettle s o).updateInterval = s.updateInterval ∧
      (fetchDataSettle s o).nextHandle = s.nextHandle := by
  unfold fetchDataSettle
  split
  · exact ⟨rfl, rfl, rfl⟩
  · cases o <;> exact ⟨rfl, rfl, rfl⟩

theorem timerInv_initChart (s : State) (loaded : Bool) (h : TimerInv s) :
    TimerInv (initChart s loaded) := by
  unfold initChart
  split
  · exact h
  · split
    · exact h
    · split
      · exact h
      · exact timerInv_startUpdates _ (timerInv_congr s _ h rfl rfl rfl)

theorem timerInv_applySettings (s : State) (settings : Settings) (o : ApplyOutcome)
    (h : TimerInv s) : TimerInv (applySettings s settings o) := by
  unfold applySettings
  split
  · exact h
  · exact h
  · dsimp only
    split
    · exact timerInv_congr s _ h rfl rfl rfl
    · split
      · exact timerInv_congr s _ h rfl rfl rfl
      · split
        · exact timerInv_congr s _ h rfl rfl rfl
        · exact timerInv_startUpdates _ (timerInv_congr s _ h rfl rfl rfl)

theorem timerInv_step (s : State) (e : Event) (h : TimerInv s) : TimerInv (step s e) := by
  cases e with
  | tick =>
    obtain ⟨h1, h2, h3⟩ := tickCallback_timers s
    exact timerInv_congr s _ h h1 h2 h3
  | capture =>
    obtain ⟨h1, h2, h3⟩ := fetchData_timers s
    exact timerInv_congr s _ h h1 h2 h3
  | toggle => exact timerInv_congr s _ h rfl rfl rfl
  | setModeSettled o => exact h
  | settle o =>
    obtain ⟨h1, h2, h3⟩ := fetchDataSettle_timers s o
    exact timerInv_congr s _ h h1 h2 h3
  | initChart loaded => exact timerInv_initChart s loaded h
  | startUpdates => exact timerInv_startUpdates s h
  | applySettings settings o => exact timerInv_applySettings s settings o h
  | applySignalSettings settings o =>
    show TimerInv (applySignalSettings s settings o)
    unfold applySignalSettings
    split
    · exact timerInv_congr s _ h rfl rfl rfl
    · exact h

theorem timerInv_run (s : State) (events : List Event) (h : TimerInv s) :
    TimerInv (run s events) := by
  induction events generalizing s with
  | nil => exact h
  | cons e rest ih => exact ih (step s e) (timerInv_step s e h)

theorem timerInv_init : TimerInv init := by
  refine ⟨by decide, ?_, by decide⟩
  intro t ht
  cases ht

theorem resetDatasets_ok (n : JsNum) (k : Nat) (h : arrayLength n = .ok k)
    (ds : List Dataset) :
    resetDatasets n ds = .ok (ds.map fun d => { d with data := List.replicate k (.num 0) }) := by
  induction ds with
  | nil => rfl
  | cons d rest ih => simp [resetDatasets, h, ih]

theorem applySettings_ok (s : State) (settings : Settings) (c : Chart) (k : Nat)
    (hc : s.chart = some c) (hk : arrayLength settings.numSamples = .ok k) :
    applySettings s settings (.response true) =
      startUpdates { s with
        currentSettings := settings,
        chart := some
          { labels := List.range (toLength settings.numSamples),
            datasets := c.datasets.map fun d =>
              { d with data := List.replicate k (.num 0) } } } := by
  simp [applySettings, hc, resetDatasets_ok settings.numSamples k hk,
    (arrayFrom_of_arrayLength _ k hk).1, (arrayFrom_of_arrayLength _ k hk).2]

/-! ## Timers: results -/

/-- The re-arm on the path of `applySettings` that raises no exception.  In
every state reached from the initial state at most one periodic timer is
active, before and after `applySettings`; an ok response commits the submitted
record; and when the chart exists and the submitted `numSamples` is a valid
array length, the one active timer afterwards has the submitted `webUpdate` as
its period, its handle is the one stored in `updateInterval`, and no timer that
was active before is active any more. -/
theorem rearm_of_valid_settings (events : List Event) (settings : Settings) :
    (run init events).timers.length ≤ 1 ∧
      (applySettings (run init events) settings (.response true)).timers.length ≤ 1 ∧
      (applySettings (run init events) settings (.response true)).currentSettings = settings ∧
      (∀ (c : Chart) (k : Nat), (run init events).chart = some c →
        arrayLength settings.numSamples = .ok k →
        ∃ h : Nat,
          (applySettings (run init events) settings (.response true)).timers
            = [{ handle := h, period := settings.webUpdate }] ∧
          (applySettings (run init events) settings (.response true)).updateInterval
            = some h ∧
          ∀ t ∈ (run init events).timers,
            t.handle ∉ activeHandles
              (applySettings (run init events) settings (.response true))) := by
  have hinv := timerInv_run init events timerInv_init
  refine ⟨hinv.2.2, (timerInv_applySettings _ settings _ hinv).2.2, ?_, ?_⟩
  · unfold applySettings
    dsimp only
    split
    · rfl
    · split
      · rfl
      · split
        · rfl
        · exact (startUpdates_frame _).2.2.2.2.1
  · intro c k hc hk
    rw [applySettings_ok _ settings c k hc hk]
    obtain ⟨ht, hu, _⟩ := startUpdates_timers _
      (timerInv_congr (run init events)
        { run init events with
          currentSettings := settings,
          chart := some
            { labels := List.range (toLength settings.numSamples),
              datasets := c.datasets.map fun d =>
                { d with data := List.replicate k (.num 0) } } }
        hinv rfl rfl rfl)
    refine ⟨(run init events).nextHandle, ht, hu, ?_⟩
    intro t hmem
    have hlt := (hinv.2.1 t hmem).2.2
    simp only [activeHandles, ht, List.map_cons, List.map_nil, List.mem_singleton]
    omega

/-- C7 (cadence re-arm) at the failing input.  On the running page (timer 1,
period 500) an ok response to a record with `numSamples` = -1 and `webUpdate` =
200 commits the record, empties the labels and then raises in `Array(-1)`
before `startUpdates` is reached: the settings say 200, the sample buffers keep
their hundred samples, and the only active timer is still timer 1 with period
500.  The same change of `webUpdate` with a valid `numSamples` replaces timer 1
by timer 2 with period 200. -/
theorem applySettings_skips_rearm :
    running.timers = [{ handle := 1, period := .int 500 }] ∧
      (applySettings running negativeSamples (.response true)).currentSettings
        = negativeSamples ∧
      (applySettings running negativeSamples (.response true)).currentSettings.webUpdate
        = .int 200 ∧
      (applySettings running negativeSamples (.response true)).timers
        = [{ handle := 1, period := .int 500 }] ∧
      (applySettings running negativeSamples (.response true)).updateInterval = some 1 ∧
      (applySettings running negativeSamples (.response true)).chart
        = some { labels := [], datasets := initialDatasets 100 } ∧
      (applySettings running fasterSettings (.response true)).timers
        = [{ handle := 2, period := .int 200 }] := by
  refine ⟨rfl, rfl, rfl, rfl, rfl, rfl, rfl⟩

/-! ## Signal status label: results -/

theorem hundredths_voltage_bounds (a : Nat) :
    5100 * hundredths (a * 33) (10 * 255) < 6600 * a + 2550 ∧
      6600 * a + 2550 < 5100 * hundredths (a * 33) (10 * 255) + 5100 := by
  unfold hundredths
  omega

theorem hundredths_voltage_nearest (a : Nat) :
    |((hundredths (a * 33) (10 * 255) : Nat) : ℚ) - 100 * ((a : ℚ) * 3.3 / 255)| < 1 / 2 := by
  obtain ⟨h1, h2⟩ := hundredths_voltage_bounds a
  have q1 : (5100 : ℚ) * (hundredths (a * 33) (10 * 255) : Nat) < 6600 * (a : ℚ) + 2550 := by
    exact_mod_cast h1
  have q2 : 6600 * (a : ℚ) + 2550 < 5100 * (hundredths (a * 33) (10 * 255) : Nat) + 5100 := by
    exact_mod_cast h2
  rw [abs_lt]
  constructor <;> norm_num <;> linarith

theorem hundredths_voltage_le (a : Nat) (h : a ≤ 255) :
    hundredths (a * 33) (10 * 255) ≤ 330 := by
  unfold hundredths
  omega

set_option maxRecDepth 100000 in
/-- No amplitude of the 8-bit range gives the voltage text `1.65`: amplitude
127 gives `1.64` and amplitude 128 gives `1.66`. -/
theorem voltage_ne_165 (a : Nat) (h : a ≤ 255) : voltage a ≠ "1.65" := by
  have h1 : ∀ b, b < 256 → voltage b ≠ "1.65" := by decide
  exact h1 a (by omega)

/-- C6, as stated, fails at its second example: for the enabled DC status of
amplitude 128 the label is `DC 1.66V` (128 × 3.3 / 255 = 1.6564...), not
`DC 1.65V`. -/
theorem signal_status_label_counterexample :
    updateSignalStatus dcStatus ≠ "DC 1.65V" ∧ updateSignalStatus dcStatus = "DC 1.66V" := by
  decide

/-- C6 (status derivation, amended).  For an enabled status with an amplitude
of at most 255 and a frequency and a duty cycle below `2^53`, there is one
number `n` of hundredths, the one nearest to amplitude × 3.3 / 255 × 100 (less
than half a hundredth away, and at most 330), such that with `<voltage>` being
`n` written with two decimals the label is `DC <voltage>V` for type 0,
`PWM <frequency>Hz <dutyCycle>% (<voltage>V)` for type 4 and
`<name> <frequency>Hz (<voltage>V)` with the names Square, Sine and Triangle
for types 1, 2 and 3.  The PWM example gives `PWM 1000Hz 25% (3.30V)`; the DC
example at amplitude 128 gives `DC 1.66V`. -/
theorem signal_status_label (status : SignalStatus) (h : status.enabled = true)
    (ha : status.amplitude ≤ 255)
    (_hf : ∀ f, status.frequency = some f → f < 9007199254740992)
    (_hd : ∀ d, status.dutyCycle = some d → d < 9007199254740992) :
    (∃ n : Nat,
      |(n : ℚ) - 100 * ((status.amplitude : ℚ) * 3.3 / 255)| < 1 / 2 ∧ n ≤ 330 ∧
      (∀ m : Nat, |(m : ℚ) - 100 * ((status.amplitude : ℚ) * 3.3 / 255)| < 1 / 2 → m = n) ∧
      (status.waveformType = 0 →
        updateSignalStatus status = "DC " ++ twoDecimals n ++ "V") ∧
      (status.waveformType = 4 →
        updateSignalStatus status = "PWM " ++ interpolate status.frequency ++ "Hz "
          ++ interpolate status.dutyCycle ++ "% (" ++ twoDecimals n ++ "V)") ∧
      (status.waveformType = 1 →
        updateSignalStatus status = "Square " ++ interpolate status.frequency ++ "Hz ("
          ++ twoDecimals n ++ "V)") ∧
      (status.waveformType = 2 →
        updateSignalStatus status = "Sine " ++ interpolate status.frequency ++ "Hz ("
          ++ twoDecimals n ++ "V)") ∧
      (status.waveformType = 3 →
        updateSignalStatus status = "Triangle " ++ interpolate status.frequency ++ "Hz ("
          ++ twoDecimals n ++ "V)")) ∧
    updateSignalStatus pwmStatus = "PWM 1000Hz 25% (3.30V)" ∧
    updateSignalStatus dcStatus = "DC 1.66V" := by
  refine ⟨⟨hundredths (status.amplitude * 33) (10 * 255),
    hundredths_voltage_nearest status.amplitude,
    hundredths_voltage_le status.amplitude ha, ?_, ?_, ?_, ?_, ?_, ?_⟩, by decide, by decide⟩
  · intro m hm
    have hn := hundredths_voltage_nearest status.amplitude
    rw [abs_lt] at hm hn
    have hlt : |(m : ℚ) - (hundredths (status.amplitude * 33) (10 * 255) : Nat)| < 1 := by
      rw [abs_lt]
      constructor <;> linarith [hm.1, hm.2, hn.1, hn.2]
    have hz : |(m : ℤ) - (hundredths (status.amplitude * 33) (10 * 255) : Nat)| < 1 := by
      exact_mod_cast hlt
    have := Int.abs_lt_one_iff.mp hz
    omega
  · intro hw
    simp [updateSignalStatus, h, hw, voltage, toFixed2]
  · intro hw
    simp [updateSignalStatus, h, hw, voltage, toFixed2]
  · intro hw
    have hs : "Square" ++ " " = "Square " := by decide
    simp [updateSignalStatus, h, hw, waveforms, voltage, toFixed2, hs]
  · intro hw
    have hs : "Sine" ++ " " = "Sine " := by decide
    simp [updateSignalStatus, h, hw, waveforms, voltage, toFixed2, hs]
  · intro hw
    have hs : "Triangle" ++ " " = "Triangle " := by decide
    simp [updateSignalStatus, h, hw, waveforms, voltage, toFixed2, hs]

/-- C6 (amended) at the PWM example: the number of hundredths is 330 and the
label is `PWM 1000Hz 25% (3.30V)`. -/
theorem signal_status_label_witness :
    ∃ n : Nat, n = 330 ∧
      updateSignalStatus pwmStatus = "PWM " ++ interpolate (some 1000) ++ "Hz "
        ++ interpolate (some 25) ++ "% (" ++ twoDecimals n ++ "V)" := by
  obtain ⟨⟨n, _, _, huniq, _, hpwm, _⟩, _, _⟩ :=
    signal_status_label pwmStatus rfl (by decide)
      (by intro f hf; cases hf; decide) (by intro d hd; cases hd; decide)
  have h330 : (330 : Nat) = n := by
    apply huniq
    show |((330 : Nat) : ℚ) - 100 * (((255 : Nat) : ℚ) * 3.3 / 255)| < 1 / 2
    norm_num
  exact ⟨n, h330.symm, hpwm rfl⟩

end Oscilloscope
